import Mathlib

/-!
Verification of the pipeline hand-off, front-end, registry writer and result
reader of the three-stage 3D-world generation repository.

Each definition below is a shallow embedding of one function (or one code
path) of the repository, translated from the Python source; the doc comment
of every definition names the file and lines it embeds.  Side-effecting code
(S3 uploads, DynamoDB writes, external model calls) is embedded as explicit
event lists or result pairs; external services (the S3 presigner, DynamoDB)
are parameters of the embedding.
-/

/- ===== Characters and theme sanitization ===== -/

/-- Membership in the character class of the regular expression character
class [a-z0-9] (codepoints 97-122 and 48-57), as used by the theme
auto-generation regex in ai_engine/test/run_all_steps.py line 51. -/
def isThemeChar (c : Char) : Bool :=
  (97 ≤ c.toNat && c.toNat ≤ 122) || (48 ≤ c.toNat && c.toNat ≤ 57)

/-- Membership in the regex character class [a-zA-Z0-9], as used by the mock
theme derivation in backend/routers/generate.py line 60. -/
def isAsciiAlnum (c : Char) : Bool :=
  (97 ≤ c.toNat && c.toNat ≤ 122) || (65 ≤ c.toNat && c.toNat ≤ 90) ||
    (48 ≤ c.toNat && c.toNat ≤ 57)

/-- State machine for Python re.sub(r'[^a-z0-9]+', '_', s): each maximal run
of characters outside [a-z0-9] is replaced by a single underscore.  The
Boolean argument records whether the previous character belonged to such a
run (so that no second underscore is emitted for it). -/
def subRunsAux : Bool → List Char → List Char
  | _, [] => []
  | inRun, c :: cs =>
    if isThemeChar c then c :: subRunsAux false cs
    else if inRun then subRunsAux true cs
    else '_' :: subRunsAux true cs

/-- re.sub(r'[^a-z0-9]+', '_', s) of run_all_steps.py line 51, on the
character list of s. -/
def subRuns (l : List Char) : List Char :=
  subRunsAux false l

/-- Python str.strip('_'): remove leading and trailing underscores. -/
def stripUnderscore (l : List Char) : List Char :=
  ((l.dropWhile (fun c => c == '_')).reverse.dropWhile (fun c => c == '_')).reverse

/-- Theme auto-generation of run_all_steps.run_all_steps
(ai_engine/test/run_all_steps.py line 51), used when no theme is supplied:
re.sub(r'[^a-z0-9]+', '_', prompt.lower())[:20].strip('_').
Python str.lower is embedded as character-wise Char.toLower; both lower-case
the basic latin letters, and every character outside [a-z0-9] is replaced by
an underscore in the same step regardless. -/
def autoTheme (prompt : String) : String :=
  String.mk (stripUnderscore ((subRuns (prompt.data.map Char.toLower)).take 20))

/-- clean_prompt = re.sub(r'[^a-zA-Z0-9]', '', request.prompt_ja[:10]) of
backend/routers/generate.py line 60. -/
def cleanPrompt (prompt : String) : String :=
  String.mk ((prompt.data.take 10).filter isAsciiAlnum)

/-- The sanitization the mock front-end applies to the prompt excerpt before
embedding it in the theme (backend/routers/generate.py lines 60-62): filter
to [a-zA-Z0-9] and lower-case the result. -/
def mockClean (prompt : String) : String :=
  String.mk (((prompt.data.take 10).filter isAsciiAlnum).map Char.toLower)

/-- Mock theme derivation of generate_world
(backend/routers/generate.py lines 57-62): theme is "mock-" followed by the
cleaned, lower-cased prompt excerpt, or "mock-world" when the prompt or its
cleaned excerpt is empty. -/
def mockTheme (prompt : String) : String :=
  if prompt.data.length > 0 && !(cleanPrompt prompt).isEmpty then
    "mock-" ++ mockClean prompt
  else
    "mock-world"

/-- The spec's theme pattern: s matches the anchored regex with character
class lower-alphanumeric-or-hyphen, one or more characters. -/
def themePatternOk (s : String) : Bool :=
  !s.data.isEmpty && s.data.all (fun c => isThemeChar c || c == '-')

/-- No two adjacent underscores occur in l. -/
def NoRun (l : List Char) : Prop :=
  l.Chain' (fun a b => ¬(a = '_' ∧ b = '_'))

/-- The pattern the auto-generated theme actually satisfies: every character
is lower-alphanumeric or an underscore (possibly the empty string). -/
def underscorePatternOk (s : String) : Bool :=
  s.data.all (fun c => isThemeChar c || c == '_')

/- ===== Storage keys of the three stage runners ===== -/

/-- S3 key written by step 1 (ai_engine/src/step1_text2pano.py lines 179-180):
the prefix argument when non-empty (Python truthiness), otherwise the
theme-derived default, followed by "panorama.png". -/
def step1Key (s3PrefixArg theme : String) : String :=
  (if s3PrefixArg.isEmpty then "3dworlds/" ++ theme ++ "/" else s3PrefixArg)
    ++ "panorama.png"

/-- The prefix step 2 computes for its upload
(ai_engine/src/step2_decompose.py line 138); it is interpolated into the log
message on line 140 but never used for the keys. -/
def step2LayersRootOf (s3PrefixArg theme : String) : String :=
  if s3PrefixArg.isEmpty then "3dworlds/" ++ theme ++ "/layers/" else s3PrefixArg

/-- S3 key actually used by step 2's upload loop
(ai_engine/src/step2_decompose.py line 147): the raw --s3_prefix argument
(default "") concatenated with the file's path relative to the output
directory.  The computed theme-derived prefix of line 138 does not appear
here. -/
def step2UploadKey (s3PrefixArg relativePath : String) : String :=
  s3PrefixArg ++ relativePath

/-- The S3 keys step 2 uploads, one per file of the output directory, in the
order os.walk enumerates them (ai_engine/src/step2_decompose.py lines
143-150).  The loop imposes no ordering of its own and does not special-case
the metadata manifest, so walkFiles is the arbitrary directory-enumeration
order of the filesystem. -/
def step2UploadKeys (s3PrefixArg : String) (walkFiles : List String) : List String :=
  walkFiles.map (fun rel => step2UploadKey s3PrefixArg rel)

/-- File names written to the local output directory by step 2's main, in
program order (ai_engine/src/step2_decompose.py): the copied panorama
(line 105), then the artifacts produced by the external decomposition call
(lines 111-116, an opaque list), then the metadata manifest
(lines 126-128). -/
def step2LocalWrites (decompositionOutputs : List String) : List String :=
  "panorama.png" :: decompositionOutputs ++ ["decomposition_metadata.json"]

/-- Storage keys present if the runner stops after the first n uploads of the
given upload sequence complete (uploads are sequential, one file at a
time). -/
def storageAfter (uploads : List String) (n : Nat) : List String :=
  uploads.take n

/-- The prefix step 3 downloads its inputs from
(ai_engine/src/step3_compose.py line 185). -/
def step3DownloadRoot (theme : String) : String :=
  "3dworlds/" ++ theme ++ "/layers/"

/-- S3 key written by step 3's upload loop
(ai_engine/src/step3_compose.py lines 265-273): here the computed local
prefix variable is the one used. -/
def step3UploadKey (s3PrefixArg theme fname : String) : String :=
  (if s3PrefixArg.isEmpty then "3dworlds/" ++ theme ++ "/" else s3PrefixArg) ++ fname

/- ===== Stage-runner traces (stage-in checks and the external call) ===== -/

/-- Observable staging events of a stage runner invocation. -/
inductive StageEvent where
  | s3Download (key : String)
  | inputCheck (name : String)
  | localWrite (name : String)
  | externalCall (description : String)
  deriving DecidableEq

/-- Errors a stage runner raises during stage-in. -/
inductive StageError where
  | fileNotFound (message : String)
  deriving DecidableEq

/-- True exactly on external-processing-call events. -/
def isExternal : StageEvent → Bool
  | StageEvent.externalCall _ => true
  | _ => false

/-- Trace of step 2's main from the input check up to the external
decomposition call (ai_engine/src/step2_decompose.py lines 96-116): the
existence check of input_dir/panorama.png (lines 97-99) precedes the
construction of the decomposer (line 108, which loads the external models)
and the decompose call (line 111).  When the panorama is absent, main raises
FileNotFoundError naming the path and nothing external runs; there is no
retry loop anywhere in main. -/
def step2Trace (panoramaPresent : Bool) : List StageEvent × Option StageError :=
  if panoramaPresent then
    ([StageEvent.inputCheck "panorama.png",
      StageEvent.localWrite "panorama.png",
      StageEvent.externalCall "LayerDecomposition.run"], none)
  else
    ([StageEvent.inputCheck "panorama.png"],
     some (StageError.fileNotFound
       "Panorama not found: /opt/ml/processing/input/panorama.png"))

/-- Trace of step 3's main from the S3 download loop up to the external
composition call (ai_engine/src/step3_compose.py lines 183-245): the
download loop (lines 192-217) is followed by the existence check of
decomposition_metadata.json (lines 220-222), then of panorama.png
(lines 230-232), and only then by the composer construction and the
generate_world call (lines 238-245).  Each missing input raises
FileNotFoundError naming the path, before anything external runs; there is
no retry loop anywhere in main. -/
def step3Trace (downloadedKeys : List String)
    (metadataPresent panoramaPresent : Bool) :
    List StageEvent × Option StageError :=
  let dl := downloadedKeys.map StageEvent.s3Download
  if metadataPresent then
    if panoramaPresent then
      (dl ++ [StageEvent.inputCheck "decomposition_metadata.json",
              StageEvent.inputCheck "panorama.png",
              StageEvent.externalCall "WorldComposer.generate_world"], none)
    else
      (dl ++ [StageEvent.inputCheck "decomposition_metadata.json",
              StageEvent.inputCheck "panorama.png"],
       some (StageError.fileNotFound
         "Panorama not found: /opt/ml/processing/input/panorama.png"))
  else
    (dl ++ [StageEvent.inputCheck "decomposition_metadata.json"],
     some (StageError.fileNotFound
       "Metadata not found: /opt/ml/processing/input/decomposition_metadata.json"))

/- ===== Registry writer (lambda/data_writer/handler.py) ===== -/

/-- The event document the registry-writer lambda receives; each field is
optional, mirroring event.get. -/
structure WriterEvent where
  theme : Option String
  png_uri : Option String
  ply_uris : Option (List String)

/-- The DynamoDB item the lambda builds (handler.py lines 56-65); the ply
pointers are expanded into the columns ply_uri_1.. in list order. -/
structure WriterItem where
  itemId : String
  theme : String
  png_uri : String
  ply_uris : List String
  created_at : String
  deriving DecidableEq

/-- The HTTP-style response of the lambda: status code and the error or
success message serialized into the body. -/
structure WriterResponse where
  statusCode : Nat
  body : String
  deriving DecidableEq

/-- Python truthiness of an optional string: present and non-empty. -/
def truthy : Option String → Bool
  | none => false
  | some s => !s.isEmpty

/-- lambda_handler of lambda/data_writer/handler.py (lines 27-84).
freshId stands for the uuid generated on line 53 and now for the timestamp
of line 60.  putSucceeds models whether the DynamoDB put_item call on
line 68 succeeds; when it raises, the except block (lines 79-84) returns a
500 response, and no durable record exists.  The second component is the
list of records durably written by the invocation.  Every code path of the
Python handler is inside its try/except, so the embedding is a total
function and no exception escapes. -/
def lambda_handler (ev : WriterEvent) (freshId now : String)
    (putSucceeds : Bool) : WriterResponse × List WriterItem :=
  let plys := ev.ply_uris.getD []
  if !truthy ev.theme then
    (⟨400, "theme is required"⟩, [])
  else if !truthy ev.png_uri then
    (⟨400, "png_uri is required"⟩, [])
  else if plys.isEmpty || plys.length < 3 || 4 < plys.length then
    (⟨400, "ply_uris must contain 3-4 URIs"⟩, [])
  else
    let item : WriterItem :=
      ⟨freshId, ev.theme.getD "", ev.png_uri.getD "", plys, now⟩
    if putSucceeds then (⟨200, "Successfully registered"⟩, [item])
    else (⟨500, "Internal server error"⟩, [])

/- ===== Result reader (backend/routers/worlds.py) ===== -/

/-- One DynamoDB item as scanned by get_worlds; every field is read with
item.get and may be absent. -/
structure DbItem where
  itemId : Option String
  theme : Option String
  png_uri : Option String
  ply_uri_1 : Option String
  ply_uri_2 : Option String
  ply_uri_3 : Option String
  ply_uri_4 : Option String
  created_at : Option String

/-- One entry of the worlds listing built by get_worlds
(worlds.py lines 42-48). -/
structure WorldEntry where
  entryId : Option String
  theme : Option String
  png_url : String
  ply_urls : List String
  created_at : Option String
  deriving DecidableEq

/-- Python s.split('/', 1) on a character list: split at the first '/' only,
giving one or two pieces. -/
def splitFirstSlash : List Char → List (List Char)
  | [] => [[]]
  | c :: cs =>
    if c = '/' then [[], cs]
    else
      match splitFirstSlash cs with
      | [] => [[c]]
      | h :: t => (c :: h) :: t

/-- Python s.replace('s3://', '') of worlds.py line 71: remove every
occurrence of the scheme marker, scanning left to right.  The fuel argument
is the list length, which bounds the number of steps. -/
def dropSchemeAux : Nat → List Char → List Char
  | 0, l => l
  | _ + 1, [] => []
  | fuel + 1, c :: cs =>
    if ("s3://".data).isPrefixOf (c :: cs) then dropSchemeAux fuel (cs.drop 4)
    else c :: dropSchemeAux fuel cs

/-- Python (s3_uri.replace('s3://', '')) on the character list. -/
def dropScheme (l : List Char) : List Char :=
  dropSchemeAux l.length l

/-- generate_presigned_url of backend/routers/worlds.py (lines 56-87).
mint models the S3 client's presigner: given bucket, key and the expiry in
seconds it returns the URL, or none when the client raises, in which case
the except block (lines 85-87) returns the empty string.  A URI that is
empty or does not start with the s3 scheme, or whose remainder has no '/'
separating bucket from key, yields the empty string before any client
call. -/
def generate_presigned_url (mint : String → String → Nat → Option String)
    (s3_uri : String) (expiration : Nat) : String :=
  if s3_uri.isEmpty || !("s3://".data.isPrefixOf s3_uri.data) then ""
  else
    match splitFirstSlash (dropScheme s3_uri.data) with
    | [b, k] =>
      match mint (String.mk b) (String.mk k) expiration with
      | some url => url
      | none => ""
    | _ => ""

/-- The ply pointers of an item that the loop of worlds.py lines 37-40
presigns: ply_uri_1 .. ply_uri_4, keeping those that are present and
non-empty (Python truthiness), in index order. -/
def plyUris (it : DbItem) : List String :=
  (([it.ply_uri_1, it.ply_uri_2, it.ply_uri_3, it.ply_uri_4].filterMap id).filter
    (fun s => !s.isEmpty))

/-- The listing entry get_worlds builds for one scanned item
(worlds.py lines 32-48): the stored fields are copied through and each
pointer is presigned with the 600-second expiry (the default argument of
generate_presigned_url, used by both call sites). -/
def worldOf (mint : String → String → Nat → Option String)
    (it : DbItem) : WorldEntry :=
  { entryId := it.itemId
  , theme := it.theme
  , png_url := generate_presigned_url mint (it.png_uri.getD "") 600
  , ply_urls := (plyUris it).map (fun u => generate_presigned_url mint u 600)
  , created_at := it.created_at }

/-- get_worlds of backend/routers/worlds.py (lines 20-50): one listing entry
per scanned item, in scan order; the response body is the record with this
list under the key worlds. -/
def get_worlds (mint : String → String → Nat → Option String)
    (items : List DbItem) : List WorldEntry :=
  items.map (worldOf mint)

/- ===== Mock status endpoint (backend/routers/generate.py) ===== -/

/-- The response of the mock get_generation_status. -/
structure MockStatusResult where
  execution_arn : String
  status : String
  outputTheme : String
  outputMessage : String

/-- get_generation_status of backend/routers/generate.py (lines 189-211),
the active mock implementation: for every execution_id it returns a 200
response with status SUCCEEDED and a fixed mock output; the NotFound path
exists only in the commented-out production variant (lines 243-244). -/
def get_generation_status (execution_id : String) : MockStatusResult :=
  { execution_arn := "mock-execution-" ++ execution_id.replace "mock-" ""
  , status := "SUCCEEDED"
  , outputTheme := "mock-world"
  , outputMessage := "Mock execution completed successfully" }

/- ===== Helper lemmas: characters ===== -/

/-- Char.toLower leaves lower-case letters, digits and the underscore
unchanged. -/
theorem toLower_eq_self_of_sanChar (c : Char)
    (h : isThemeChar c = true ∨ c = '_') : c.toLower = c := by
  have hn : ¬(c.toNat ≥ 65 ∧ c.toNat ≤ 90) := by
    rcases h with h | rfl
    · simp only [isThemeChar, Bool.or_eq_true, Bool.and_eq_true,
        decide_eq_true_eq] at h
      omega
    · decide
  simp [Char.toLower, hn]

/-- The underscore is not in [a-z0-9]. -/
theorem not_isThemeChar_underscore : isThemeChar '_' = false := by
  decide

/-- A character of [a-z0-9] is not the underscore. -/
theorem ne_underscore_of_isThemeChar (c : Char) (h : isThemeChar c = true) :
    c ≠ '_' := by
  intro hc
  rw [hc] at h
  exact absurd h (by decide)

/-- Characters of [a-z0-9] are in [a-zA-Z0-9]. -/
theorem isAsciiAlnum_of_isThemeChar (c : Char) (h : isThemeChar c = true) :
    isAsciiAlnum c = true := by
  simp only [isThemeChar, Bool.or_eq_true, Bool.and_eq_true,
    decide_eq_true_eq] at h
  simp only [isAsciiAlnum, Bool.or_eq_true, Bool.and_eq_true,
    decide_eq_true_eq]
  omega

/-- Lower-casing an upper-case basic latin letter by adding 32 to its
codepoint lands in [a-z0-9]. -/
theorem isThemeChar_ofNat_add32 (n : Nat) (h1 : 65 ≤ n) (h2 : n ≤ 90) :
    isThemeChar (Char.ofNat (n + 32)) = true := by
  interval_cases n <;> decide

/-- Lower-casing a character of [a-zA-Z0-9] lands in [a-z0-9]. -/
theorem isThemeChar_toLower_of_alnum (c : Char)
    (h : isAsciiAlnum c = true) : isThemeChar c.toLower = true := by
  simp only [isAsciiAlnum, Bool.or_eq_true, Bool.and_eq_true,
    decide_eq_true_eq] at h
  rcases h with (h | h) | h
  · rw [toLower_eq_self_of_sanChar c (Or.inl (by
      simp only [isThemeChar, Bool.or_eq_true, Bool.and_eq_true,
        decide_eq_true_eq]
      omega))]
    simp only [isThemeChar, Bool.or_eq_true, Bool.and_eq_true,
      decide_eq_true_eq]
    omega
  · have hcond : c.toNat ≥ 65 ∧ c.toNat ≤ 90 := ⟨h.1, h.2⟩
    have hrw : c.toLower = Char.ofNat (c.toNat + 32) := by
      simp [Char.toLower, hcond]
    rw [hrw]
    exact isThemeChar_ofNat_add32 c.toNat h.1 h.2
  · rw [toLower_eq_self_of_sanChar c (Or.inl (by
      simp only [isThemeChar, Bool.or_eq_true, Bool.and_eq_true,
        decide_eq_true_eq]
      omega))]
    simp only [isThemeChar, Bool.or_eq_true, Bool.and_eq_true,
      decide_eq_true_eq]
    omega

/- ===== Helper lemmas: the underscore-run state machine ===== -/

/-- Reduction of the state machine on a [a-z0-9] head. -/
theorem subRunsAux_cons_theme (b : Bool) (a : Char) (t : List Char)
    (ha : isThemeChar a = true) :
    subRunsAux b (a :: t) = a :: subRunsAux false t := by
  simp [subRunsAux, ha]

/-- Reduction of the state machine on a replaced head inside a run. -/
theorem subRunsAux_cons_inRun (a : Char) (t : List Char)
    (ha : ¬isThemeChar a = true) :
    subRunsAux true (a :: t) = subRunsAux true t := by
  simp [subRunsAux, ha]

/-- Reduction of the state machine on a replaced head opening a run. -/
theorem subRunsAux_cons_newRun (a : Char) (t : List Char)
    (ha : ¬isThemeChar a = true) :
    subRunsAux false (a :: t) = '_' :: subRunsAux true t := by
  simp [subRunsAux, ha]

/-- Every character the run-replacing sub emits is in [a-z0-9] or is the
underscore. -/
theorem mem_subRunsAux (b : Bool) (l : List Char) :
    ∀ c ∈ subRunsAux b l, isThemeChar c = true ∨ c = '_' := by
  induction l generalizing b with
  | nil => intro c hc; simp [subRunsAux] at hc
  | cons a t ih =>
    intro c hc
    by_cases ha : isThemeChar a = true
    · rw [subRunsAux_cons_theme b a t ha] at hc
      rcases List.mem_cons.1 hc with rfl | hc
      · exact Or.inl ha
      · exact ih false c hc
    · cases b with
      | true =>
        rw [subRunsAux_cons_inRun a t ha] at hc
        exact ih true c hc
      | false =>
        rw [subRunsAux_cons_newRun a t ha] at hc
        rcases List.mem_cons.1 hc with rfl | hc
        · exact Or.inr rfl
        · exact ih true c hc

/-- While inside a run, the next character emitted is a [a-z0-9] character
(never an underscore). -/
theorem head_subRunsAux_true (l : List Char) (c : Char) (cs : List Char)
    (h : subRunsAux true l = c :: cs) : isThemeChar c = true := by
  induction l generalizing c cs with
  | nil => simp [subRunsAux] at h
  | cons a t ih =>
    by_cases ha : isThemeChar a = true
    · rw [subRunsAux_cons_theme true a t ha] at h
      injection h with h1 _
      exact h1 ▸ ha
    · rw [subRunsAux_cons_inRun a t ha] at h
      exact ih c cs h

/-- The run-replacing sub never emits two adjacent underscores. -/
theorem noRun_subRunsAux (b : Bool) (l : List Char) :
    NoRun (subRunsAux b l) := by
  induction l generalizing b with
  | nil => simp [subRunsAux, NoRun]
  | cons a t ih =>
    by_cases ha : isThemeChar a = true
    · rw [subRunsAux_cons_theme b a t ha, NoRun, List.chain'_cons']
      refine ⟨fun y _ hc => ?_, ih false⟩
      exact ne_underscore_of_isThemeChar a ha hc.1
    · cases b with
      | true =>
        rw [subRunsAux_cons_inRun a t ha]
        exact ih true
      | false =>
        rw [subRunsAux_cons_newRun a t ha, NoRun, List.chain'_cons']
        refine ⟨fun y hy hc => ?_, ih true⟩
        cases heq : subRunsAux true t with
        | nil => rw [heq] at hy; simp at hy
        | cons c cs =>
          rw [heq] at hy
          simp only [List.head?_cons, Option.mem_def, Option.some.injEq] at hy
          subst hy
          exact ne_underscore_of_isThemeChar c
            (head_subRunsAux_true t c cs heq) hc.2

/-- On a list whose characters are in [a-z0-9] or underscore, with no two
adjacent underscores, the run-replacing sub is the identity (when entered in
run state, additionally the head must not be an underscore). -/
theorem subRunsAux_eq_self (l : List Char)
    (h1 : ∀ c ∈ l, isThemeChar c = true ∨ c = '_')
    (h2 : NoRun l) :
    ∀ b : Bool, (b = true → l.head? ≠ some '_') → subRunsAux b l = l := by
  induction l with
  | nil => intro b _; rfl
  | cons a t ih =>
    intro b hb
    have h1t : ∀ c ∈ t, isThemeChar c = true ∨ c = '_' :=
      fun c hc => h1 c (List.mem_cons_of_mem a hc)
    have h2t : NoRun t := (List.chain'_cons'.1 h2).2
    rcases h1 a (List.mem_cons_self a t) with ha | ha
    · rw [subRunsAux_cons_theme b a t ha]
      rw [ih h1t h2t false (fun h => nomatch h)]
    · subst ha
      cases b with
      | true => exact absurd rfl (hb rfl)
      | false =>
        rw [subRunsAux_cons_newRun '_' t (by decide)]
        rw [ih h1t h2t true ?_]
        intro _ hhead
        cases t with
        | nil => simp at hhead
        | cons x xs =>
          simp only [List.head?_cons, Option.some.injEq] at hhead
          exact (List.chain'_cons'.1 h2).1 x (by simp) ⟨rfl, hhead⟩

/- ===== Helper lemmas: dropWhile, strip, map ===== -/

/-- The head surviving a dropWhile does not satisfy the predicate. -/
theorem head?_dropWhile_false {α : Type} (p : α → Bool) (l : List α) (a : α)
    (h : (l.dropWhile p).head? = some a) : p a = false := by
  induction l with
  | nil => simp [List.dropWhile] at h
  | cons b t ih =>
    rw [List.dropWhile_cons] at h
    cases hb : p b with
    | true => rw [hb] at h; simp only [if_true] at h; exact ih h
    | false =>
      rw [hb] at h
      simp only [Bool.false_eq_true, if_false, List.head?_cons,
        Option.some.injEq] at h
      subst h
      exact hb

/-- dropWhile is the identity when the head does not satisfy the
predicate. -/
theorem dropWhile_eq_self_of_head {α : Type} (p : α → Bool) (l : List α)
    (h : ∀ a, l.head? = some a → p a = false) : l.dropWhile p = l := by
  cases l with
  | nil => rfl
  | cons b t =>
    rw [List.dropWhile_cons]
    simp [h b rfl]

/-- A suffix that is non-empty shares its last element with the whole
list. -/
theorem getLast?_eq_of_suffix {α : Type} {l₁ l₂ : List α} (h : l₁ <:+ l₂)
    (a : α) (ha : l₁.getLast? = some a) : l₂.getLast? = some a := by
  obtain ⟨Z, rfl⟩ := h
  rw [List.getLast?_append, ha]
  rfl

/-- Characters of the stripped list come from the original list. -/
theorem mem_stripUnderscore (l : List Char) (c : Char)
    (hc : c ∈ stripUnderscore l) : c ∈ l := by
  unfold stripUnderscore at hc
  rw [List.mem_reverse] at hc
  have h1 := (List.dropWhile_sublist _).subset hc
  rw [List.mem_reverse] at h1
  exact (List.dropWhile_sublist _).subset h1

/-- Reversal preserves the absence of adjacent underscore pairs. -/
theorem noRun_reverse (l : List Char) (h : NoRun l) : NoRun l.reverse := by
  rw [NoRun, List.chain'_reverse]
  exact List.Chain'.imp (fun a b hab hx => hab ⟨hx.2, hx.1⟩) h

/-- Stripping preserves the absence of adjacent underscore pairs. -/
theorem noRun_stripUnderscore (l : List Char) (h : NoRun l) :
    NoRun (stripUnderscore l) := by
  unfold stripUnderscore
  apply noRun_reverse
  apply List.Chain'.suffix _ (List.dropWhile_suffix _)
  apply noRun_reverse
  exact List.Chain'.suffix h (List.dropWhile_suffix _)

/-- The stripped list does not start with an underscore. -/
theorem head?_stripUnderscore (l : List Char) (a : Char)
    (h : (stripUnderscore l).head? = some a) : (a == '_') = false := by
  unfold stripUnderscore at h
  rw [List.head?_reverse] at h
  have h2 := getLast?_eq_of_suffix (List.dropWhile_suffix _) a h
  rw [List.getLast?_reverse] at h2
  exact head?_dropWhile_false (fun c => c == '_') _ a h2

/-- The stripped list does not end with an underscore. -/
theorem getLast?_stripUnderscore (l : List Char) (a : Char)
    (h : (stripUnderscore l).getLast? = some a) : (a == '_') = false := by
  unfold stripUnderscore at h
  rw [List.getLast?_reverse] at h
  exact head?_dropWhile_false (fun c => c == '_') _ a h

/-- Stripping is the identity when neither end is an underscore. -/
theorem stripUnderscore_eq_self (l : List Char)
    (h1 : ∀ a, l.head? = some a → (a == '_') = false)
    (h2 : ∀ a, l.getLast? = some a → (a == '_') = false) :
    stripUnderscore l = l := by
  unfold stripUnderscore
  rw [dropWhile_eq_self_of_head _ _ h1]
  rw [dropWhile_eq_self_of_head _ _
    (fun a ha => h2 a (by rwa [List.head?_reverse] at ha))]
  exact List.reverse_reverse l

/-- Stripping does not lengthen a list. -/
theorem length_stripUnderscore_le (l : List Char) :
    (stripUnderscore l).length ≤ l.length := by
  unfold stripUnderscore
  rw [List.length_reverse]
  have a1 := (List.dropWhile_sublist
    (l := (l.dropWhile (fun c => c == '_')).reverse)
    (fun c => c == '_')).length_le
  rw [List.length_reverse] at a1
  have a2 := (List.dropWhile_sublist (l := l) (fun c => c == '_')).length_le
  omega

/-- Mapping toLower is the identity on lists of [a-z0-9] or underscore
characters. -/
theorem map_toLower_eq_self (l : List Char)
    (h : ∀ c ∈ l, isThemeChar c = true ∨ c = '_') :
    l.map Char.toLower = l := by
  induction l with
  | nil => rfl
  | cons a t ih =>
    simp only [List.map_cons]
    rw [toLower_eq_self_of_sanChar a (h a (List.mem_cons_self a t)),
      ih (fun c hc => h c (List.mem_cons_of_mem a hc))]

/- ===== Helper lemmas: properties of the sanitized outputs ===== -/

/-- Every character of the auto-generated theme is in [a-z0-9] or is the
underscore. -/
theorem autoTheme_chars (p : String) :
    ∀ c ∈ (autoTheme p).data, isThemeChar c = true ∨ c = '_' := by
  intro c hc
  have h1 := mem_stripUnderscore _ _ hc
  have h2 := List.take_subset 20 _ h1
  exact mem_subRunsAux false _ c h2

/-- The auto-generated theme has no two adjacent underscores. -/
theorem autoTheme_noRun (p : String) : NoRun (autoTheme p).data := by
  apply noRun_stripUnderscore
  exact List.Chain'.take (noRun_subRunsAux false _) 20

/-- The auto-generated theme has at most 20 characters. -/
theorem autoTheme_length_le (p : String) : (autoTheme p).data.length ≤ 20 := by
  have h1 := length_stripUnderscore_le
    ((subRuns (p.data.map Char.toLower)).take 20)
  have h2 := List.length_take_le 20 (subRuns (p.data.map Char.toLower))
  exact le_trans h1 h2

/-- The theme auto-generation of run_all_steps.py is idempotent. -/
theorem autoTheme_idem (p : String) : autoTheme (autoTheme p) = autoTheme p := by
  have halpha := autoTheme_chars p
  have hnorun := autoTheme_noRun p
  have hlen := autoTheme_length_le p
  show String.mk (stripUnderscore
    ((subRuns ((autoTheme p).data.map Char.toLower)).take 20)) = autoTheme p
  rw [map_toLower_eq_self _ halpha]
  rw [show subRuns (autoTheme p).data = (autoTheme p).data from
    subRunsAux_eq_self _ halpha hnorun false (fun h => nomatch h)]
  rw [List.take_of_length_le hlen]
  rw [stripUnderscore_eq_self ((autoTheme p).data)
    (fun a ha => head?_stripUnderscore
      ((subRuns (p.data.map Char.toLower)).take 20) a ha)
    (fun a ha => getLast?_stripUnderscore
      ((subRuns (p.data.map Char.toLower)).take 20) a ha)]

/-- Every character of the mock front-end sanitization output is a
lower-case letter or digit. -/
theorem mockClean_chars (p : String) :
    ∀ c ∈ (mockClean p).data, isThemeChar c = true := by
  intro c hc
  obtain ⟨d, hd, rfl⟩ := List.mem_map.1 hc
  exact isThemeChar_toLower_of_alnum d (List.mem_filter.1 hd).2

/-- The mock front-end sanitization output has at most 10 characters. -/
theorem mockClean_length_le (p : String) : (mockClean p).data.length ≤ 10 := by
  show ((((p.data.take 10).filter isAsciiAlnum).map Char.toLower)).length ≤ 10
  rw [List.length_map]
  exact le_trans ((List.filter_sublist _).length_le) (List.length_take_le 10 _)

/-- The mock front-end sanitization is idempotent. -/
theorem mockClean_idem (p : String) : mockClean (mockClean p) = mockClean p := by
  have hchars := mockClean_chars p
  show String.mk ((((mockClean p).data.take 10).filter isAsciiAlnum).map
    Char.toLower) = mockClean p
  rw [List.take_of_length_le (mockClean_length_le p)]
  rw [List.filter_eq_self.mpr
    (fun c hc => isAsciiAlnum_of_isThemeChar c (hchars c hc))]
  rw [map_toLower_eq_self _ (fun c hc => Or.inl (hchars c hc))]

/- ===== Helper lemmas: result reader and traces ===== -/

/-- A pointer without the s3 scheme yields the empty URL without any client
call. -/
theorem gpu_empty_of_bad_scheme (mint : String → String → Nat → Option String)
    (uri : String) (exp : Nat)
    (h : ("s3://".data.isPrefixOf uri.data) = false) :
    generate_presigned_url mint uri exp = "" := by
  unfold generate_presigned_url
  rw [if_pos]
  simp [h]

/-- When the presigning client fails on every input, every URL degrades to
the empty string. -/
theorem gpu_empty_of_mint_none (mint : String → String → Nat → Option String)
    (uri : String) (exp : Nat) (h : ∀ b k, mint b k exp = none) :
    generate_presigned_url mint uri exp = "" := by
  unfold generate_presigned_url
  split
  · rfl
  · split
    · rw [h]
    · rfl

/-- Download events are never external-processing events. -/
theorem countP_external_downloads (keys : List String) :
    (keys.map StageEvent.s3Download).countP isExternal = 0 := by
  induction keys with
  | nil => rfl
  | cons k t ih => simp [List.countP_cons, isExternal, ih]

/-- Download events are never external-processing events (composed form). -/
theorem countP_external_downloads_comp (keys : List String) :
    keys.countP (isExternal ∘ StageEvent.s3Download) = 0 := by
  induction keys with
  | nil => rfl
  | cons k t ih => simp [List.countP_cons, isExternal, Function.comp, ih]

/- ===== Claim theorems ===== -/

/-- C1.  The claim says each stage's artifacts land at deterministic keys
under the theme namespace, stage 2's under 3dworlds/{theme}/layers/, the
exact prefix stage 3 downloads from.  Stages 1 and 3 do write under the
theme namespace, and stage 2 even computes the layers prefix, but its upload
loop concatenates the raw --s3_prefix argument (default the empty string)
instead, so with the default configuration a stage-2 file with relative path
panorama.png is uploaded to the bucket-root key panorama.png, outside the
prefix stage 3 reads — the hand-off key contract is broken by the code. -/
theorem C1_step2_upload_escapes_theme_namespace :
    step2UploadKey "" "panorama.png" = "panorama.png" ∧
    step2LayersRootOf "" "demo" = "3dworlds/demo/layers/" ∧
    step3DownloadRoot "demo" = "3dworlds/demo/layers/" ∧
    ("3dworlds/demo/layers/".data.isPrefixOf "panorama.png".data) = false ∧
    step1Key "" "demo" = "3dworlds/demo/panorama.png" ∧
    step3UploadKey "" "demo" "mesh_layer0.ply" = "3dworlds/demo/mesh_layer0.ply" := by
  refine ⟨by decide, by decide, by decide, by decide, by decide, by decide⟩

/-- C2 counterexample.  The storage state reached when step 2's upload loop
stops after one upload, with the os.walk enumeration putting the metadata
manifest first, contains the manifest while the fg1.png artifact of the same
stage is absent — presence of the manifest does not imply artifact
completeness. -/
theorem C2_counterexample :
    "decomposition_metadata.json" ∈
      storageAfter (step2UploadKeys "" ["decomposition_metadata.json", "fg1.png"]) 1 ∧
    "fg1.png" ∈ step2UploadKeys "" ["decomposition_metadata.json", "fg1.png"] ∧
    "fg1.png" ∉
      storageAfter (step2UploadKeys "" ["decomposition_metadata.json", "fg1.png"]) 1 := by
  refine ⟨by decide, by decide, by decide⟩

/-- C2 amended.  In the local output directory the manifest is the last file
written, after the panorama copy and every decomposition artifact; but the
S3 upload loop sends the directory contents in enumeration order without
ordering the manifest last, so some enumeration order and stopping point
leave the manifest in storage while another uploaded file of the same stage
is missing. -/
theorem C2_amended_manifest_last_locally_not_in_storage
    (decompositionOutputs : List String) :
    (step2LocalWrites decompositionOutputs).getLast?
      = some "decomposition_metadata.json" ∧
    (∃ walkFiles n,
      "decomposition_metadata.json" ∈ storageAfter (step2UploadKeys "" walkFiles) n ∧
      ∃ f ∈ step2UploadKeys "" walkFiles,
        f ∉ storageAfter (step2UploadKeys "" walkFiles) n) := by
  constructor
  · show (("panorama.png" :: decompositionOutputs)
      ++ ["decomposition_metadata.json"]).getLast? = _
    rw [List.getLast?_append]
    rfl
  · exact ⟨["decomposition_metadata.json", "fg1.png"], 1, by decide,
      "fg1.png", by decide, by decide⟩

/-- C4.  The active status endpoint is the mock: it answers SUCCEEDED with a
fixed output for every execution id, known or not; no input produces the
NotFound failure the claim requires (that path exists only in the
commented-out production variant). -/
theorem C4_status_mock_always_succeeds (execution_id : String) :
    (get_generation_status execution_id).status = "SUCCEEDED" :=
  rfl

/-- C5 counterexample.  For the prompt with no theme supplied, the test
driver's auto-generation produces a theme containing an underscore, which
does not match the claimed pattern of lowercase alphanumerics and hyphens
only. -/
theorem C5_counterexample :
    autoTheme "mountain lake" = "mountain_lake" ∧
    themePatternOk "mountain_lake" = false := by
  refine ⟨by decide, by decide⟩

/-- C5 amended.  The front-end's derived (mock) theme always matches the
lowercase-alphanumeric-and-hyphen pattern; the test driver's auto-generated
theme instead consists of lowercase alphanumerics and underscores (and may
be empty), because its regex uses the underscore as the separator. -/
theorem C5_amended_theme_charsets (prompt : String) :
    themePatternOk (mockTheme prompt) = true ∧
    underscorePatternOk (autoTheme prompt) = true := by
  constructor
  · unfold mockTheme
    split
    · unfold themePatternOk
      rw [Bool.and_eq_true]
      constructor
      · rw [String.data_append]
        rfl
      · rw [String.data_append, List.all_append, Bool.and_eq_true]
        refine ⟨by decide, ?_⟩
        rw [List.all_eq_true]
        intro c hc
        simp [mockClean_chars prompt c hc]
    · decide
  · unfold underscorePatternOk
    rw [List.all_eq_true]
    intro c hc
    rcases autoTheme_chars prompt c hc with h | rfl
    · simp [h]
    · simp

/-- C7.  Both theme sanitizations in the repository are idempotent: the test
driver's auto-generation (replace non-[a-z0-9] runs with underscore after
lower-casing, truncate to 20, strip edge underscores) and the mock
front-end's cleaning (truncate to 10, drop non-alphanumerics, lower-case)
are unchanged by a second application. -/
theorem C7_sanitization_idempotent (x : String) :
    autoTheme (autoTheme x) = autoTheme x ∧
    mockClean (mockClean x) = mockClean x :=
  ⟨autoTheme_idem x, mockClean_idem x⟩

/-- C3 counterexample.  An event with a non-empty theme, a present (but
empty-string) final-image pointer and exactly three mesh pointers satisfies
the claim's acceptance conditions, yet the handler rejects it with 400 and
writes nothing, because Python truthiness also rejects a present empty
pointer. -/
theorem C3_counterexample :
    truthy (WriterEvent.mk (some "sunset-lake") (some "")
      (some ["s3://b/m1.ply", "s3://b/m2.ply", "s3://b/m3.ply"])).theme = true ∧
    (WriterEvent.mk (some "sunset-lake") (some "")
      (some ["s3://b/m1.ply", "s3://b/m2.ply", "s3://b/m3.ply"])).png_uri.isSome
        = true ∧
    ((WriterEvent.mk (some "sunset-lake") (some "")
      (some ["s3://b/m1.ply", "s3://b/m2.ply", "s3://b/m3.ply"])).ply_uris.getD
        []).length = 3 ∧
    (lambda_handler (WriterEvent.mk (some "sunset-lake") (some "")
      (some ["s3://b/m1.ply", "s3://b/m2.ply", "s3://b/m3.ply"]))
      "id-1" "2025-01-01T00:00:00" true).1.statusCode = 400 ∧
    (lambda_handler (WriterEvent.mk (some "sunset-lake") (some "")
      (some ["s3://b/m1.ply", "s3://b/m2.ply", "s3://b/m3.ply"]))
      "id-1" "2025-01-01T00:00:00" true).2 = [] := by
  refine ⟨by decide, by decide, by decide, by decide, by decide⟩

/-- C3 amended.  When the registry write succeeds, the handler returns 200
exactly when the theme is present and non-empty, the final-image pointer is
present and non-empty, and there are 3 or 4 mesh pointers; on 200 it has
written exactly one record carrying the event's fields, and otherwise it
returns 400 having written nothing. -/
theorem C3_amended_validation (ev : WriterEvent) (freshId now : String) :
    ((lambda_handler ev freshId now true).1.statusCode = 200 ↔
      (truthy ev.theme = true ∧ truthy ev.png_uri = true ∧
        3 ≤ (ev.ply_uris.getD []).length ∧ (ev.ply_uris.getD []).length ≤ 4)) ∧
    ((lambda_handler ev freshId now true).1.statusCode = 200 →
      (lambda_handler ev freshId now true).2 =
        [⟨freshId, ev.theme.getD "", ev.png_uri.getD "", ev.ply_uris.getD [], now⟩]) ∧
    ((lambda_handler ev freshId now true).1.statusCode ≠ 200 →
      (lambda_handler ev freshId now true).1.statusCode = 400 ∧
      (lambda_handler ev freshId now true).2 = []) := by
  by_cases h1 : truthy ev.theme = true
  · by_cases h2 : truthy ev.png_uri = true
    · by_cases h3 : ((ev.ply_uris.getD []).isEmpty
          || (ev.ply_uris.getD []).length < 3
          || 4 < (ev.ply_uris.getD []).length) = true
      · have hred : lambda_handler ev freshId now true =
            (⟨400, "ply_uris must contain 3-4 URIs"⟩, []) := by
          simp [lambda_handler, h1, h2, h3]
        rw [hred]
        have hlen : ¬(3 ≤ (ev.ply_uris.getD []).length ∧
            (ev.ply_uris.getD []).length ≤ 4) := by
          simp only [Bool.or_eq_true, decide_eq_true_eq,
            List.isEmpty_iff_length_eq_zero] at h3
          omega
        refine ⟨?_, ?_, ?_⟩
        · simp [hlen, h1, h2]
        · intro h; simp at h
        · intro _; exact ⟨rfl, rfl⟩
      · have hred : lambda_handler ev freshId now true =
            (⟨200, "Successfully registered"⟩,
              [⟨freshId, ev.theme.getD "", ev.png_uri.getD "",
                ev.ply_uris.getD [], now⟩]) := by
          simp [lambda_handler, h1, h2, h3]
        rw [hred]
        have hlen : 3 ≤ (ev.ply_uris.getD []).length ∧
            (ev.ply_uris.getD []).length ≤ 4 := by
          simp only [Bool.or_eq_true, decide_eq_true_eq,
            List.isEmpty_iff_length_eq_zero] at h3
          omega
        refine ⟨?_, ?_, ?_⟩
        · simp [h1, h2, hlen.1, hlen.2]
        · intro _; rfl
        · intro h; exact absurd rfl h
    · have hred : lambda_handler ev freshId now true =
          (⟨400, "png_uri is required"⟩, []) := by
        simp [lambda_handler, h1, h2]
      rw [hred]
      refine ⟨?_, ?_, ?_⟩
      · simp [h2]
      · intro h; simp at h
      · intro _; exact ⟨rfl, rfl⟩
  · have hred : lambda_handler ev freshId now true =
        (⟨400, "theme is required"⟩, []) := by
      simp [lambda_handler, h1]
    rw [hred]
    refine ⟨?_, ?_, ?_⟩
    · simp [h1]
    · intro h; simp at h
    · intro _; exact ⟨rfl, rfl⟩

/-- C3 witness: a well-formed event with three mesh pointers is accepted and
written as one record. -/
theorem C3_amended_validation_witness :
    (lambda_handler (WriterEvent.mk (some "lake") (some "s3://b/i.png")
      (some ["s3://b/m1.ply", "s3://b/m2.ply", "s3://b/m3.ply"]))
      "id-2" "2025-01-01T00:00:00" true).2 =
      [⟨"id-2", "lake", "s3://b/i.png",
        ["s3://b/m1.ply", "s3://b/m2.ply", "s3://b/m3.ply"],
        "2025-01-01T00:00:00"⟩] := by
  have h := C3_amended_validation (WriterEvent.mk (some "lake")
    (some "s3://b/i.png")
    (some ["s3://b/m1.ply", "s3://b/m2.ply", "s3://b/m3.ply"]))
    "id-2" "2025-01-01T00:00:00"
  exact h.2.1 (by decide)

/-- C10.  The registry-writer handler is total: every invocation returns a
response with status code 200, 400 or 500 (no exception escapes the
try/except), and a 400 validation failure happens before the put_item call,
leaving the registry unchanged. -/
theorem C10_handler_total_and_atomic (ev : WriterEvent) (freshId now : String)
    (putSucceeds : Bool) :
    ((lambda_handler ev freshId now putSucceeds).1.statusCode = 200 ∨
      (lambda_handler ev freshId now putSucceeds).1.statusCode = 400 ∨
      (lambda_handler ev freshId now putSucceeds).1.statusCode = 500) ∧
    ((lambda_handler ev freshId now putSucceeds).1.statusCode = 400 →
      (lambda_handler ev freshId now putSucceeds).2 = []) := by
  unfold lambda_handler
  split_ifs <;> simp <;> split <;> simp

/-- C10 witness: an event missing its theme gets a 400 response and no
record is written. -/
theorem C10_handler_total_and_atomic_witness :
    (lambda_handler (WriterEvent.mk none none none) "id-3" "t0" true).2 = [] := by
  have h := C10_handler_total_and_atomic (WriterEvent.mk none none none)
    "id-3" "t0" true
  exact h.2 (by decide)

/-- C6.  The worlds listing maps each scanned record independently; a stored
pointer that does not start with the s3 scheme (and likewise any pointer the
presigning client fails on) yields the empty string for that one URL field,
while the record's other fields are copied through unchanged and the other
records' entries are untouched (the listing is a per-record map). -/
theorem C6_bad_pointer_degrades_to_empty
    (mint : String → String → Nat → Option String)
    (items : List DbItem) (it : DbItem) :
    (get_worlds mint items = items.map (worldOf mint)) ∧
    (∀ uri exp, ("s3://".data.isPrefixOf uri.data) = false →
      generate_presigned_url mint uri exp = "") ∧
    (∀ uri exp, (∀ b k, mint b k exp = none) →
      generate_presigned_url mint uri exp = "") ∧
    (("s3://".data.isPrefixOf (it.png_uri.getD "").data) = false →
      (worldOf mint it).png_url = "" ∧
      (worldOf mint it).entryId = it.itemId ∧
      (worldOf mint it).theme = it.theme ∧
      (worldOf mint it).created_at = it.created_at ∧
      (worldOf mint it).ply_urls =
        (plyUris it).map (fun u => generate_presigned_url mint u 600)) := by
  refine ⟨rfl, fun uri exp h => gpu_empty_of_bad_scheme mint uri exp h,
    fun uri exp h => gpu_empty_of_mint_none mint uri exp h, fun h => ?_⟩
  exact ⟨gpu_empty_of_bad_scheme mint _ 600 h, rfl, rfl, rfl, rfl⟩

/-- C6 witness: a record whose image pointer uses the http scheme gets an
empty image URL while its theme and its well-formed mesh pointer survive. -/
theorem C6_bad_pointer_degrades_to_empty_witness :
    (worldOf (fun b k _ => some ("https://signed/" ++ b ++ "/" ++ k))
      (DbItem.mk (some "id-9") (some "lake") (some "http://not-s3")
        (some "s3://b/m1.ply") none (some "") none
        (some "2025-01-02"))).png_url = "" ∧
    (worldOf (fun b k _ => some ("https://signed/" ++ b ++ "/" ++ k))
      (DbItem.mk (some "id-9") (some "lake") (some "http://not-s3")
        (some "s3://b/m1.ply") none (some "") none
        (some "2025-01-02"))).theme = some "lake" ∧
    (worldOf (fun b k _ => some ("https://signed/" ++ b ++ "/" ++ k))
      (DbItem.mk (some "id-9") (some "lake") (some "http://not-s3")
        (some "s3://b/m1.ply") none (some "") none
        (some "2025-01-02"))).ply_urls = ["https://signed/b/m1.ply"] := by
  have h := C6_bad_pointer_degrades_to_empty
    (fun b k _ => some ("https://signed/" ++ b ++ "/" ++ k)) []
    (DbItem.mk (some "id-9") (some "lake") (some "http://not-s3")
      (some "s3://b/m1.ply") none (some "") none (some "2025-01-02"))
  have h4 := h.2.2.2 (by decide)
  exact ⟨h4.1, h4.2.2.1, by decide⟩

/-- C8.  Each stage runner checks its required upstream inputs before
anything external runs: step 2 checks panorama.png before constructing the
decomposer, step 3 checks the metadata manifest and then the panorama after
its download loop and before constructing the composer.  A missing input
produces a FileNotFoundError whose message ends with the absent artifact's
name, the trace contains no external-processing call, and in every case the
external call happens at most once (no internal retry). -/
theorem C8_missing_input_failfast (p2 m3 p3 : Bool)
    (downloadedKeys : List String) :
    (p2 = false →
      (step2Trace p2).2 = some (StageError.fileNotFound
        "Panorama not found: /opt/ml/processing/input/panorama.png") ∧
      ("panorama.png".data.isSuffixOf
        "Panorama not found: /opt/ml/processing/input/panorama.png".data)
          = true ∧
      (step2Trace p2).1.countP isExternal = 0) ∧
    ((step2Trace p2).1.countP isExternal ≤ 1) ∧
    (m3 = false →
      (step3Trace downloadedKeys m3 p3).2 = some (StageError.fileNotFound
        "Metadata not found: /opt/ml/processing/input/decomposition_metadata.json") ∧
      ("decomposition_metadata.json".data.isSuffixOf
        "Metadata not found: /opt/ml/processing/input/decomposition_metadata.json".data)
          = true ∧
      (step3Trace downloadedKeys m3 p3).1.countP isExternal = 0) ∧
    (m3 = true → p3 = false →
      (step3Trace downloadedKeys m3 p3).2 = some (StageError.fileNotFound
        "Panorama not found: /opt/ml/processing/input/panorama.png") ∧
      (step3Trace downloadedKeys m3 p3).1.countP isExternal = 0) ∧
    ((step3Trace downloadedKeys m3 p3).1.countP isExternal ≤ 1) := by
  have hs1 : ("panorama.png".data.isSuffixOf
      "Panorama not found: /opt/ml/processing/input/panorama.png".data)
        = true := by decide
  have hs2 : ("decomposition_metadata.json".data.isSuffixOf
      "Metadata not found: /opt/ml/processing/input/decomposition_metadata.json".data)
        = true := by decide
  cases p2 <;> cases m3 <;> cases p3 <;>
    simp [step2Trace, step3Trace, List.countP_append, List.countP_cons,
      isExternal, countP_external_downloads, countP_external_downloads_comp,
      hs1, hs2]

/-- C8 witness: with the panorama absent step 2 runs nothing external; with
the metadata absent after a download, step 3 runs nothing external; with the
metadata present but the panorama absent, step 3 raises the error naming the
panorama. -/
theorem C8_missing_input_failfast_witness :
    (step2Trace false).1.countP isExternal = 0 ∧
    (step3Trace ["3dworlds/demo/layers/fg1.png"] false true).1.countP
      isExternal = 0 ∧
    (step3Trace [] true false).2 = some (StageError.fileNotFound
      "Panorama not found: /opt/ml/processing/input/panorama.png") := by
  have h1 := C8_missing_input_failfast false false true
    ["3dworlds/demo/layers/fg1.png"]
  have h2 := C8_missing_input_failfast false true false []
  exact ⟨(h1.1 rfl).2.2, (h1.2.2.1 rfl).2.2, (h2.2.2.2.1 rfl rfl).1⟩

/-- C9.  The worlds listing returns one entry per scanned Run Record — in
particular the empty registry yields the empty list, not an error — and
every access URL of every entry is minted through the presigner with the
600-second expiry. -/
theorem C9_worlds_listing (mint : String → String → Nat → Option String)
    (items : List DbItem) :
    get_worlds mint [] = [] ∧
    (get_worlds mint items).length = items.length ∧
    get_worlds mint items = items.map (fun it =>
      WorldEntry.mk it.itemId it.theme
        (generate_presigned_url mint (it.png_uri.getD "") 600)
        ((plyUris it).map (fun u => generate_presigned_url mint u 600))
        it.created_at) := by
  refine ⟨rfl, ?_, rfl⟩
  simp [get_worlds]
